import Mathlib

/-!
Shallow embedding of `src/survon-installer.rs` (survon-os).

The program is a single-file ratatui installer front end.  We embed:

* the Rust string primitives the program uses (`str::starts_with`,
  `str::replace`, `str::trim`) as executable functions on `List Char`;
* the mutable `AppState` struct and its `Default`;
* the key-event handling of `main`'s event loop (lines 28-44), including
  the clamped selection navigation (lines 34-35);
* `run_install` (lines 63-89): the spawn step (whose failure propagates
  through `?`) and the child-stdout read loop that classifies lines by the
  `PROGRESS:` / `ERROR:` prefixes, together with the trace of state
  mutations it performs;
* the overall control flow of `main` (raw-mode enter at lines 19-21,
  cleanup at lines 47-48), as a function from the key-event list and the
  child-process behaviour to a result recording the final state, whether
  the terminal raw/alternate mode was still active when `main` returned,
  and the ordered trace of renders and observable state mutations.

`draw_ui` (lines 93-130) is display-only except for its tail: line 121
assigns `model_choice = selected` on every non-installing frame, and lines
122-129 read a URL from stdin and invoke `run_install` from inside the
render callback.  That tail is not executable through ratatui's `draw`
(the function's signature admits neither `?` nor `.await`); we embed the
state effect of lines 120-129 separately as `draw_ui_effect`, and the loop
model performs line 121's `model_choice` assignment at each draw.
-/

namespace Survon

/-- Rust `str::starts_with(p)`: `p` is a literal prefix of `s`. -/
def strStartsWith (s p : String) : Bool :=
  p.data.isPrefixOf s.data

/-- Rust `str::replace` on character lists: scan left to right, replace each
non-overlapping occurrence of `pat`, never rescanning the replacement.
`fuel` bounds the recursion; with `fuel = s.length` it never runs out, since
every step consumes at least one character of `s`. -/
def listReplace (pat rep : List Char) : Nat → List Char → List Char
  | 0, s => s
  | _ + 1, [] => []
  | fuel + 1, c :: rest =>
    if pat ≠ [] ∧ pat.isPrefixOf (c :: rest) then
      rep ++ listReplace pat rep fuel ((c :: rest).drop pat.length)
    else
      c :: listReplace pat rep fuel rest

/-- Rust `String::replace(pat, rep)`. -/
def strReplace (s pat rep : String) : String :=
  ⟨listReplace pat.data rep.data s.data.length s.data⟩

/-- Rust `str::trim`: strip leading and trailing whitespace. -/
def strTrim (s : String) : String :=
  ⟨((s.data.dropWhile Char.isWhitespace).reverse.dropWhile Char.isWhitespace).reverse⟩

/-- The `AppState` struct (lines 53-60). -/
structure AppState where
  selected : Nat
  installing : Bool
  current_step : String
  model_choice : Nat
  custom_url : String
deriving DecidableEq, Repr

/-- `#[derive(Default)]`: `usize` fields 0, `bool` false, `String` empty. -/
def AppState.default : AppState :=
  { selected := 0, installing := false, current_step := "",
    model_choice := 0, custom_url := "" }

/-- The two navigation keys handled at lines 34-35. -/
inductive NavDir where
  | down
  | up
deriving DecidableEq, Repr

/-- One navigation step (lines 34-35):
`Down` is `selected.saturating_add(1).min(2)` (no overflow occurs below
`usize::MAX`, so saturating addition is ordinary addition here);
`Up` is `selected.saturating_sub(1)`, which is `Nat` subtraction. -/
def navigate (n : Nat) : NavDir → Nat
  | .down => Nat.min (n + 1) 2
  | .up => n - 1

example : navigate 0 .down = 1 := by decide
example : navigate 2 .down = 2 := by decide
example : navigate 0 .up = 0 := by decide

/-- Behaviour of the provisioning child process: the newline-terminated
lines it writes to stdout, and its exit code (read at line 88). -/
structure ChildBehavior where
  lines : List String
  exitCode : Nat
deriving DecidableEq, Repr

/-- Outcome of `Command::spawn()` at line 74: a child handle, or an
`io::Error` (executable missing, permission denied, ...). -/
inductive SpawnOutcome where
  | ok (child : ChildBehavior)
  | err (msg : String)
deriving DecidableEq, Repr

/-- Externally observable events of a run: full-frame renders
(`terminal.draw`, line 29), mutations of `selected` (lines 34-35), of
`installing` (line 37) and of `current_step` (lines 81 and 83), the child
spawn (line 74), and the terminal cleanup (lines 47-48). -/
inductive Action where
  | render
  | setSelected (n : Nat)
  | setInstalling
  | setStep (s : String)
  | spawnChild
  | disableRaw
  | leaveAlt
deriving DecidableEq, Repr

/-- The child-stdout read loop of `run_install` (lines 79-87): each line is
tested first for the `PROGRESS:` prefix (line 80) and then for the `ERROR:`
prefix (line 82); a `PROGRESS:` line sets `current_step` to the line with
every occurrence of `"PROGRESS:"` replaced by `""` (line 81); an `ERROR:`
line sets `current_step` to `"Error: "` followed by the line with every
occurrence of `"ERROR:"` replaced by `""` and then `break`s out of the loop
(lines 83-84); any other line does nothing.  Returns the final state and
the ordered trace of `current_step` mutations. -/
def processLinesTr (st : AppState) : List String → AppState × List Action
  | [] => (st, [])
  | line :: rest =>
    if strStartsWith line "PROGRESS:" then
      let step := strReplace line "PROGRESS:" ""
      let r := processLinesTr { st with current_step := step } rest
      (r.1, Action.setStep step :: r.2)
    else if strStartsWith line "ERROR:" then
      let step := "Error: " ++ strReplace line "ERROR:" ""
      ({ st with current_step := step }, [Action.setStep step])
    else
      processLinesTr st rest

/-- The version argument derivation (lines 64-68). -/
def versionArg : Nat → String
  | 0 => "master"
  | 1 => "v1.0"
  | _ => "custom-tag"

/-- The model argument derivation (line 72). -/
def modelArg (st : AppState) : String :=
  if st.model_choice = 0 then "--model=1" else "--custom-url=" ++ st.custom_url

/-- `run_install` (lines 63-89).  A spawn failure propagates immediately
through the `?` at line 74, before any line is read.  On success the read
loop runs; `child.wait()` at line 88 is then awaited but its `ExitStatus`
value is discarded (`child.exitCode` is not consulted), and `run_install`
returns `Ok(())`. -/
def run_install (spawn : SpawnOutcome) (st : AppState) :
    Except String (AppState × List Action) :=
  match spawn with
  | .err e => .error e
  | .ok child => .ok (processLinesTr st child.lines)

/-- Classification of one child-stdout line, in the order the source checks
the prefixes (line 80 before line 82), paired with the `current_step` text
the matching branch would store; `none` for an unrecognized line. -/
def classify (line : String) : Option String :=
  if strStartsWith line "PROGRESS:" then
    some (strReplace line "PROGRESS:" "")
  else if strStartsWith line "ERROR:" then
    some ("Error: " ++ strReplace line "ERROR:" "")
  else
    none

/-- Line 121 of `draw_ui`: on every frame drawn while not installing,
`model_choice` is overwritten with `selected`. -/
def drawTick (st : AppState) : AppState :=
  if st.installing then st else { st with model_choice := st.selected }

/-- The state effect of `draw_ui`'s tail (lines 120-129), as written: when
not installing, `model_choice := selected` (line 121); when the resulting
`model_choice` equals 1, a line is read from stdin and its trim is stored
into `custom_url` unconditionally — even when the trim is empty (lines
124-127); control then falls through to a `run_install` invocation
(line 129) regardless of the input.  The returned `Bool` records whether
that fall-through to `run_install` was reached. -/
def draw_ui_effect (stdin_line : String) (st : AppState) : AppState × Bool :=
  if st.installing then
    (st, false)
  else
    let st1 := { st with model_choice := st.selected }
    let st2 :=
      if st1.model_choice = 1 then { st1 with custom_url := strTrim stdin_line }
      else st1
    (st2, true)

/-- The key events `main` distinguishes (lines 32-41): `'q'`, Down, Up,
Enter, and every other key (ignored). -/
inductive KeyCode where
  | charQ
  | down
  | up
  | enter
  | other
deriving DecidableEq, Repr

/-- How `main`'s event loop (lines 28-44) ended: `brk` for a `break`
(lines 33 and 39), `err` for an `io::Error` propagated by the `?` at
line 38, `blocked` when the key-event list is exhausted and `event::read()`
(line 31) would block forever. -/
inductive LoopExit where
  | brk
  | err (msg : String)
  | blocked
deriving DecidableEq, Repr

/-- `main`'s event loop (lines 28-44): each iteration draws the frame
(line 29, with `draw_ui`'s line-121 mutation) and then blocks on one key
event (line 31).  `'q'` breaks; Down/Up navigate; Enter sets `installing`,
runs `run_install` (propagating its error through `?`) and breaks; any
other key is ignored. -/
def mainLoop (spawn : SpawnOutcome) :
    List KeyCode → AppState → List Action → LoopExit × AppState × List Action
  | [], st, tr => (.blocked, drawTick st, tr ++ [Action.render])
  | k :: rest, st, tr =>
    let st := drawTick st
    let tr := tr ++ [Action.render]
    match k with
    | .charQ => (.brk, st, tr)
    | .down =>
      let n := navigate st.selected .down
      mainLoop spawn rest { st with selected := n } (tr ++ [Action.setSelected n])
    | .up =>
      let n := navigate st.selected .up
      mainLoop spawn rest { st with selected := n } (tr ++ [Action.setSelected n])
    | .enter =>
      let st := { st with installing := true }
      let tr := tr ++ [Action.setInstalling, Action.spawnChild]
      match run_install spawn st with
      | .error e => (.err e, st, tr)
      | .ok r => (.brk, r.1, tr ++ r.2)
    | .other => mainLoop spawn rest st tr

/-- What a whole run of `main` produced: how it ended, the final state,
whether raw mode / the alternate screen were still active at the moment
`main` returned, and the ordered trace of renders and mutations. -/
structure MainResult where
  outcome : LoopExit
  state : AppState
  rawMode : Bool
  altScreen : Bool
  trace : List Action
deriving DecidableEq, Repr

/-- `main` (lines 17-50): `enable_raw_mode()` and `EnterAlternateScreen`
(lines 19-21), then the event loop on `AppState::default()` (lines 26-44).
Only after a `break` does control reach `disable_raw_mode()` and
`LeaveAlternateScreen` (lines 47-48); an `io::Error` propagated by a `?`
inside the loop returns from `main` at once, skipping lines 47-48 and
leaving raw/alternate mode active. -/
def mainModel (events : List KeyCode) (spawn : SpawnOutcome) : MainResult :=
  match mainLoop spawn events AppState.default [] with
  | (.brk, st, tr) =>
    { outcome := .brk, state := st, rawMode := false, altScreen := false,
      trace := tr ++ [Action.disableRaw, Action.leaveAlt] }
  | (.err e, st, tr) =>
    { outcome := .err e, state := st, rawMode := true, altScreen := true,
      trace := tr }
  | (.blocked, st, tr) =>
    { outcome := .blocked, state := st, rawMode := true, altScreen := true,
      trace := tr }

/-- Is an action a mutation of the externally observable session state
(`selected`, the installing flag, `current_step`)? -/
def isMutation : Action → Bool
  | .setSelected _ => true
  | .setInstalling => true
  | .setStep _ => true
  | _ => false

/-- Does every observable mutation in the trace have a render strictly
after it?  This is the rendering obligation the specification states for
traces that end with the program terminating. -/
def rendersAfterMutations : List Action → Bool
  | [] => true
  | a :: rest => (!isMutation a || rest.contains Action.render) && rendersAfterMutations rest

/-! ## Claim theorems -/

/-- C1: the claim says raw mode and the alternate screen are released on
every exit path, spawn failure included.  The code violates this: when
`Command::spawn()` fails, the `io::Error` propagates through the `?` at
line 38 and `main` returns before reaching `disable_raw_mode()` /
`LeaveAlternateScreen` (lines 47-48).  Evaluating the embedded `main` on
the spawn-failure path shows both raw mode and the alternate screen still
active at program termination. -/
theorem raw_mode_leaked_on_spawn_failure :
    (mainModel [.enter] (.err "No such file or directory (os error 2)")).rawMode = true ∧
    (mainModel [.enter] (.err "No such file or directory (os error 2)")).altScreen = true ∧
    (mainModel [.enter] (.err "No such file or directory (os error 2)")).outcome
      = .err "No such file or directory (os error 2)" :=
  ⟨rfl, rfl, rfl⟩

/-- C2: the claim says a spawn failure is reported through the normal
`Failed` phase with a descriptive message and is not a crash.  In the code
the spawn error instead propagates out of `run_install` and `main` through
`?`: no descriptive message is ever stored in the session state
(`current_step` stays empty), nothing is rendered after the spawn attempt,
and the program aborts with the raw `io::Error`.  (The parts of the claim
that do hold: no progress line is recorded, and the exit is
non-successful.) -/
theorem spawn_failure_bypasses_ui :
    (mainModel [.enter] (.err "No such file or directory (os error 2)")).state.current_step
      = "" ∧
    (mainModel [.enter] (.err "No such file or directory (os error 2)")).trace
      = [Action.render, Action.setInstalling, Action.spawnChild] ∧
    (mainModel [.enter] (.err "No such file or directory (os error 2)")).outcome
      = .err "No such file or directory (os error 2)" :=
  ⟨rfl, rfl, rfl⟩

/-- C3: the claim says confirming with the custom variant selected and
`custom_url` empty transitions to `AwaitingCustomInput`, never to
`Installing`.  The code has no such state: the Enter branch (lines 36-40)
unconditionally sets `installing = true` and invokes `run_install`, which
spawns the child at once.  Navigating to the custom entry (index 2) and
pressing Enter with `custom_url` still empty reaches the spawn
immediately, with an empty custom URL. -/
theorem enter_installs_despite_empty_custom_url :
    (mainModel [.down, .down, .enter] (.ok ⟨[], 0⟩)).state.selected = 2 ∧
    (mainModel [.down, .down, .enter] (.ok ⟨[], 0⟩)).state.custom_url = "" ∧
    (mainModel [.down, .down, .enter] (.ok ⟨[], 0⟩)).state.installing = true ∧
    Action.spawnChild ∈ (mainModel [.down, .down, .enter] (.ok ⟨[], 0⟩)).trace :=
  ⟨rfl, rfl, rfl, by decide⟩

/-- C5: the claim says an empty or whitespace-only URL submission stores
nothing and stays awaiting input.  The code (lines 124-127) stores the
trimmed input into `custom_url` unconditionally — storing the empty string
for a whitespace submission — and then falls through to the `run_install`
invocation at line 129 instead of re-prompting. -/
theorem whitespace_url_stored_and_install_reached :
    draw_ui_effect "   \n" ⟨1, false, "", 0, ""⟩ = (⟨1, false, "", 1, ""⟩, true) ∧
    (draw_ui_effect "   \n" ⟨1, false, "", 0, ""⟩).1.custom_url = "" :=
  ⟨by decide, by decide⟩

/-- C7: the claim says exit code 0 yields `Done` and a non-zero exit code
yields `Failed`.  The code discards the `ExitStatus` of `child.wait()` at
line 88 entirely: the result of `run_install` does not depend on the exit
code, and a child that prints one progress line and exits 1 produces the
same successful `Ok` result as exit 0, with no failure recorded.  (The
exception clause of the claim holds vacuously: nothing ever overwrites
`current_step` after the read loop.) -/
theorem exit_code_ignored (lines : List String) (c1 c2 : Nat) (st : AppState) :
    run_install (.ok ⟨lines, c1⟩) st = run_install (.ok ⟨lines, c2⟩) st ∧
    run_install (.ok ⟨["PROGRESS:Step 1/7: Fetching"], 1⟩) AppState.default
      = .ok ({ AppState.default with current_step := "Step 1/7: Fetching" },
             [Action.setStep "Step 1/7: Fetching"]) :=
  ⟨rfl, rfl⟩

/-- C8: the claim says a render occurs after every observable state
mutation before the program next blocks, and in particular while the
child's output is consumed.  In the code, once Enter is pressed the loop
body never reaches `terminal.draw` again: `run_install` consumes the whole
child stream and then `main` breaks and exits.  On a run with two progress
lines, the trace shows the `installing` and `current_step` mutations with
no render anywhere after them. -/
theorem install_mutations_never_rendered :
    rendersAfterMutations
      (mainModel [.enter]
        (.ok ⟨["PROGRESS:Step 1/7: Fetching", "PROGRESS:Step 2/7: Extracting"], 0⟩)).trace
      = false ∧
    (mainModel [.enter]
        (.ok ⟨["PROGRESS:Step 1/7: Fetching", "PROGRESS:Step 2/7: Extracting"], 0⟩)).trace
      = [Action.render, Action.setInstalling, Action.spawnChild,
         Action.setStep "Step 1/7: Fetching", Action.setStep "Step 2/7: Extracting",
         Action.disableRaw, Action.leaveAlt] :=
  ⟨by decide, rfl⟩

/-- C4: for every sequence of navigate calls made while selecting, the
selected index stays within [0,2], changes by at most 1 per call, and
clamps at both ends rather than wrapping: Down is
`saturating_add(1).min(2)` and Up is `saturating_sub(1)` (lines 34-35), so
from any in-range index every fold over navigation inputs stays in range,
each single step moves the index by at most one, and the endpoints 2 and 0
are fixed by Down and Up respectively. -/
theorem navigate_clamped (ds : List NavDir) (n : Nat) (h : n ≤ 2) :
    List.foldl navigate n ds ≤ 2 ∧
    (∀ m d, m ≤ 2 → navigate m d ≤ 2 ∧ navigate m d ≤ m + 1 ∧ m ≤ navigate m d + 1) ∧
    navigate 2 .down = 2 ∧ navigate 0 .up = 0 := by
  have step : ∀ m d, m ≤ 2 → navigate m d ≤ 2 ∧ navigate m d ≤ m + 1 ∧ m ≤ navigate m d + 1 := by
    intro m d hm
    cases d <;> simp only [navigate, Nat.min_def] <;> (try split) <;> omega
  refine ⟨?_, step, by decide, by decide⟩
  induction ds generalizing n with
  | nil => simpa using h
  | cons d ds ih =>
    simp only [List.foldl_cons]
    exact ih _ (step n d h).1

/-- Witness for C4 at the concrete navigation sequence Down, Down, Down,
Up starting from the initial index 0. -/
theorem navigate_clamped_witness :
    (0 : Nat) ≤ 2 ∧
      List.foldl navigate 0 [NavDir.down, NavDir.down, NavDir.down, NavDir.up] ≤ 2 :=
  ⟨by decide, (navigate_clamped [NavDir.down, NavDir.down, NavDir.down, NavDir.up] 0 (by decide)).1⟩

/-- A line that starts with `"ERROR:"` cannot also start with
`"PROGRESS:"`: its first character is `'E'`, not `'P'`. -/
lemma errorPrefix_excludes_progressPrefix (l : String)
    (h : strStartsWith l "ERROR:" = true) :
    strStartsWith l "PROGRESS:" = false := by
  unfold strStartsWith at h ⊢
  rw [List.isPrefixOf_iff_prefix] at h
  obtain ⟨t, ht⟩ := h
  have hd : l.data = 'E' :: ('R' :: 'R' :: 'O' :: 'R' :: ':' :: t) := by
    rw [← ht]; rfl
  rw [hd, show ("PROGRESS:" : String).data = 'P' :: ("ROGRESS:" : String).data from rfl,
    List.isPrefixOf_cons₂, show (('P' : Char) == 'E') = false from rfl, Bool.false_and]

/-- C6: each child-stdout line is classified by testing the `PROGRESS:`
prefix first and the `ERROR:` prefix second; a line matching neither is
silently discarded; and the `current_step` updates delivered to the state
are, in order: (i) always an order-preserving, non-coalescing subsequence
of the per-line classifications, and (ii) exactly the per-line
classifications, in the order the child wrote the lines, whenever no
`ERROR:` line occurs. -/
theorem monitor_classification_and_order (st : AppState) (lines : List String) :
    List.Sublist (processLinesTr st lines).2
      ((lines.filterMap classify).map Action.setStep) ∧
    ((∀ l ∈ lines, strStartsWith l "ERROR:" = false) →
      (processLinesTr st lines).2 = (lines.filterMap classify).map Action.setStep) ∧
    (∀ st2 pre post line, classify line = none →
      processLinesTr st2 (pre ++ line :: post) = processLinesTr st2 (pre ++ post)) ∧
    (∀ line, strStartsWith line "PROGRESS:" = true →
      classify line = some (strReplace line "PROGRESS:" "")) ∧
    (∀ line, strStartsWith line "PROGRESS:" = false →
      strStartsWith line "ERROR:" = true →
      classify line = some ("Error: " ++ strReplace line "ERROR:" "")) := by
  refine ⟨?_, ?_, ?_, ?_, ?_⟩
  · induction lines generalizing st with
    | nil => simp [processLinesTr]
    | cons line rest ih =>
      by_cases hpp : strStartsWith line "PROGRESS:" = true
      · simp only [processLinesTr, hpp, if_true, classify, List.filterMap_cons, List.map_cons]
        exact List.Sublist.cons₂ _ (ih _)
      · by_cases he : strStartsWith line "ERROR:" = true
        · simp only [processLinesTr, hpp, he, if_true, if_false, Bool.false_eq_true,
            classify, List.filterMap_cons, List.map_cons]
          exact List.Sublist.cons₂ _ (List.nil_sublist _)
        · simp only [processLinesTr, hpp, he, if_false, Bool.false_eq_true,
            classify, List.filterMap_cons, List.map_cons]
          exact ih _
  · induction lines generalizing st with
    | nil => intro _; simp [processLinesTr]
    | cons line rest ih =>
      intro hno
      have hline : strStartsWith line "ERROR:" = false := hno line (by simp)
      have hrest : ∀ l ∈ rest, strStartsWith l "ERROR:" = false := fun l hl => hno l (by simp [hl])
      by_cases hpp : strStartsWith line "PROGRESS:" = true
      · simp only [processLinesTr, hpp, if_true, classify, List.filterMap_cons, List.map_cons]
        rw [ih _ hrest]
      · simp only [processLinesTr, hpp, hline, if_false, Bool.false_eq_true,
          classify, List.filterMap_cons]
        exact ih _ hrest
  · intro st2 pre post line hnone
    have hpp : strStartsWith line "PROGRESS:" = false := by
      by_cases h : strStartsWith line "PROGRESS:" = true
      · simp [classify, h] at hnone
      · simpa using h
    have he : strStartsWith line "ERROR:" = false := by
      by_cases h : strStartsWith line "ERROR:" = true
      · simp [classify, hpp, h] at hnone
      · simpa using h
    induction pre generalizing st2 with
    | nil => simp [processLinesTr, hpp, he]
    | cons p pre ih =>
      by_cases hp : strStartsWith p "PROGRESS:" = true
      · simp only [List.cons_append, processLinesTr, hp, if_true, List.append_eq]
        rw [ih _]
      · by_cases hpe : strStartsWith p "ERROR:" = true
        · simp only [List.cons_append, processLinesTr, hp, hpe, if_true, if_false,
            Bool.false_eq_true]
        · simp only [List.cons_append, processLinesTr, hp, hpe, if_false, Bool.false_eq_true]
          exact ih _
  · intro line h
    simp [classify, h]
  · intro line h1 h2
    simp [classify, h1, h2]

/-- Witness for C6: exact in-order delivery on a stream with an
unrecognized line, classification of a line carrying both markers by the
`PROGRESS:` branch, and discarding of an unrecognized line. -/
theorem monitor_classification_and_order_witness :
    (processLinesTr AppState.default ["PROGRESS:a", "noise", "PROGRESS:b"]).2
        = ((["PROGRESS:a", "noise", "PROGRESS:b"].filterMap classify).map Action.setStep) ∧
      classify "PROGRESS:ERROR:x" = some (strReplace "PROGRESS:ERROR:x" "PROGRESS:" "") ∧
      processLinesTr AppState.default (["PROGRESS:a"] ++ "noise" :: []) =
        processLinesTr AppState.default (["PROGRESS:a"] ++ []) :=
  ⟨(monitor_classification_and_order AppState.default ["PROGRESS:a", "noise", "PROGRESS:b"]).2.1
      (by decide),
   (monitor_classification_and_order AppState.default []).2.2.2.1 "PROGRESS:ERROR:x" (by decide),
   (monitor_classification_and_order AppState.default []).2.2.1 AppState.default
      ["PROGRESS:a"] [] "noise" (by decide)⟩

/-- C9: a `PROGRESS:` line sets `current_step` to
`line.replace("PROGRESS:", "")`, which removes every occurrence of the
marker, not only the leading prefix: `"PROGRESS:a PROGRESS:b"` yields
`"a b"`, not `"a PROGRESS:b"`. -/
theorem progress_step_removes_every_marker (st : AppState) (line : String)
    (h : strStartsWith line "PROGRESS:" = true) :
    (processLinesTr st [line]).1.current_step = strReplace line "PROGRESS:" "" ∧
    (processLinesTr AppState.default ["PROGRESS:a PROGRESS:b"]).1.current_step = "a b" ∧
    ("a b" : String) ≠ "a PROGRESS:b" := by
  refine ⟨by simp [processLinesTr, h], by decide, by decide⟩

/-- Witness for C9 at the line `"PROGRESS:a PROGRESS:b"`. -/
theorem progress_step_removes_every_marker_witness :
    (processLinesTr AppState.default ["PROGRESS:a PROGRESS:b"]).1.current_step
      = strReplace "PROGRESS:a PROGRESS:b" "PROGRESS:" "" :=
  (progress_step_removes_every_marker AppState.default "PROGRESS:a PROGRESS:b" (by decide)).1

/-- C10: once a line beginning with `ERROR:` is reached, the read loop
`break`s (line 84): whatever the child writes afterwards is never read,
so the resulting state and mutation trace are independent of every line
after the first `ERROR:` line. -/
theorem error_line_stops_reading (st : AppState) (pre post post2 : List String)
    (err : String)
    (hpre : ∀ l ∈ pre, strStartsWith l "ERROR:" = false)
    (herr : strStartsWith err "ERROR:" = true) :
    processLinesTr st (pre ++ err :: post) = processLinesTr st (pre ++ err :: post2) := by
  induction pre generalizing st with
  | nil =>
    have hnp := errorPrefix_excludes_progressPrefix err herr
    simp [processLinesTr, hnp, herr]
  | cons p pre ih =>
    have hp : strStartsWith p "ERROR:" = false := hpre p (by simp)
    have hrest : ∀ l ∈ pre, strStartsWith l "ERROR:" = false := fun l hl => hpre l (by simp [hl])
    by_cases hpp : strStartsWith p "PROGRESS:" = true
    · simp only [List.cons_append, processLinesTr, hpp, if_true, List.append_eq]
      rw [ih _ hrest]
    · simp only [List.cons_append, processLinesTr, hpp, hp, if_false, Bool.false_eq_true]
      exact ih _ hrest

/-- Witness for C10: after `ERROR:disk full`, a further progress line
changes nothing. -/
theorem error_line_stops_reading_witness :
    processLinesTr AppState.default
        (["PROGRESS:Step 1/7: Fetching"] ++ "ERROR:disk full" :: ["PROGRESS:Step 3/7: Patching"])
      = processLinesTr AppState.default
        (["PROGRESS:Step 1/7: Fetching"] ++ "ERROR:disk full" :: []) :=
  error_line_stops_reading AppState.default ["PROGRESS:Step 1/7: Fetching"]
    ["PROGRESS:Step 3/7: Patching"] [] "ERROR:disk full" (by decide) (by decide)

end Survon
